import Mathlib

/-!
Verification development for the nrfusb firmware core: a shallow embedding
of the slot RF protocol (`fw/slot_rf_protocol.cc`), the nRF24L01 driver
configuration (`fw/nrf24l01.cc`) and the slot manager
(`fw/slot_rf_manager.cc`), with theorems settling the specification claims.

Machine integers are modelled as `Nat` (with explicit `% 2^w` where the
C++ code can wrap) and C++ `int` arithmetic as `Int` where a subtraction
can go negative.
-/

namespace Nrfusb

/-! ## Channel table generation (`SlotRfProtocol::Impl::GenerateChannelTable`,
`EvaluatePossibleChannel`) -/

/-- One step of the PRN: `prn = (prn * 0x0019660D) + 0x3c6ef35f` on `uint32_t`. -/
def lcgStep (prn : Nat) : Nat :=
  (prn * 0x0019660D + 0x3c6ef35f) % 4294967296

/-- The array `band_channels[4] = { 31, 63, 95, 125 }` from `EvaluatePossibleChannel`. -/
def bandChannel : Nat → Nat
  | 0 => 31
  | 1 => 63
  | 2 => 95
  | _ => 125

/-- The array `band_max[4] = { 6, 6, 6, 5 }` from `EvaluatePossibleChannel`. -/
def bandMax : Nat → Nat
  | 0 => 6
  | 1 => 6
  | 2 => 6
  | _ => 5

/-- The `get_band` lambda: first band whose upper bound is `≥ channel`,
falling back to 0 (unreachable for channels `≤ 125`). -/
def getBand (channel : Nat) : Nat :=
  if channel ≤ 31 then 0
  else if channel ≤ 63 then 1
  else if channel ≤ 95 then 2
  else if channel ≤ 125 then 3
  else 0

/-- Function `SlotRfProtocol::Impl::EvaluatePossibleChannel`, translated bit for bit.
A duplicate channel is rejected; then the source computes `band_count`
(which it never reads) and rejects when
`band_channels[this_band] >= band_max[this_band]` — comparing the band's
upper channel bound, not the band occupancy count, against the quota. -/
def EvaluatePossibleChannel (channels : List Nat) (possibleChannel : Nat) : Bool :=
  if possibleChannel ∈ channels then false
  else
    let thisBand := getBand possibleChannel
    if bandChannel thisBand ≥ bandMax thisBand then false
    else true

/-- The `while (channel_count < kNumChannels)` loop of `GenerateChannelTable`,
made total with an explicit fuel bound; `none` means the loop had not
finished after `fuel` iterations. -/
def GenerateChannelTableAux : Nat → Nat → List Nat → Option (List Nat)
  | 0, _, acc => if 23 ≤ acc.length then some acc else none
  | fuel + 1, prn, acc =>
    if 23 ≤ acc.length then some acc
    else
      let prn2 := lcgStep prn
      let possibleChannel := prn2 % 125
      if EvaluatePossibleChannel acc possibleChannel then
        GenerateChannelTableAux fuel prn2 (acc ++ [possibleChannel])
      else
        GenerateChannelTableAux fuel prn2 acc

/-- Function `SlotRfProtocol::Impl::GenerateChannelTable`: seed the PRN with the low
32 bits of the id and collect channels until 23 are accepted (or fuel runs
out). -/
def GenerateChannelTable (id : Nat) (fuel : Nat) : Option (List Nat) :=
  GenerateChannelTableAux fuel (id % 4294967296) []

/-! ## Slots, packets and the transmit cycle
(`SlotRfProtocol::Impl::TransmitCycle`, `FindEnabledSlots`, `EmitSlot`) -/

/-- Structure `SlotRfProtocol::Slot`: priority mask, payload size, age, payload bytes. -/
structure Slot where
  priority : Nat
  size : Nat
  age : Nat
  data : List Nat
deriving DecidableEq, Repr

/-- A default-initialised slot (`Slot slots_[kNumSlots] = {}`). -/
def defaultSlot : Slot :=
  { priority := 0, size := 0, age := 0, data := [] }

/-- Structure `Nrf24l01::Packet` (declared in the radio driver header, defined by the
spec as `{ size: u8 ≤ 32, data: [u8; 32] }`); `data` holds the bytes written
so far, always at offset `size`. -/
structure Packet where
  size : Nat
  data : List Nat
deriving DecidableEq, Repr

/-- The empty packet. -/
def emptyPacket : Packet :=
  { size := 0, data := [] }

/-- Read `slots_[i]`, with the default slot for an out-of-range index. -/
def getSlot (slots : List Slot) (i : Nat) : Slot :=
  slots.getD i defaultSlot

/-- Function `SlotRfProtocol::Impl::FindEnabledSlots`: the indices `i < 16` with
`slots_[i].priority & (1 << current_priority)` nonzero, in increasing order. -/
def FindEnabledSlots (slots : List Slot) (currentPriority : Nat) : List Nat :=
  (List.range 16).filter
    (fun i => (getSlot slots i).priority &&& (1 <<< currentPriority) != 0)

/-- Insert an index into a list of indices sorted by strictly decreasing
slot age (the `std::sort` comparator `slots_[lhs].age > slots_[rhs].age`). -/
def insertByAgeDesc (slots : List Slot) (i : Nat) : List Nat → List Nat
  | [] => [i]
  | j :: rest =>
    if (getSlot slots i).age > (getSlot slots j).age then i :: j :: rest
    else j :: insertByAgeDesc slots i rest

/-- Sort candidate indices by descending slot age. -/
def sortByAgeDesc (slots : List Slot) : List Nat → List Nat
  | [] => []
  | i :: rest => insertByAgeDesc slots i (sortByAgeDesc slots rest)

/-- The acceptance test in `TransmitCycle`:
`(slots_[slot_idx].size + 1) < remaining_size` with
`const int remaining_size = 32 - tx_packet_.size;` (C++ `int` arithmetic). -/
def acceptSlot (txSize slotSize : Nat) : Bool :=
  decide ((slotSize + 1 : Int) < 32 - (txSize : Int))

/-- Function `SlotRfProtocol::Impl::EmitSlot`: append the header byte
`(slot_index << 4) | slots_[slot_index].size`, then `size` payload bytes,
advancing `tx_packet_.size` by `1 + size` and zeroing the slot's age. -/
def EmitSlot (slots : List Slot) (p : Packet) (i : Nat) : Packet × List Slot :=
  let sl := getSlot slots i
  let header := (i <<< 4) ||| sl.size
  ({ size := p.size + 1 + sl.size, data := p.data ++ header :: sl.data.take sl.size },
   slots.set i { sl with age := 0 })

/-- The packing loop of `TransmitCycle` over the age-sorted candidate list:
each candidate is emitted exactly when `acceptSlot` holds for the current
`tx_packet_.size`. -/
def TransmitCycleLoop (slots : List Slot) (p : Packet) : List Nat → Packet × List Slot
  | [] => (p, slots)
  | i :: rest =>
    if acceptSlot p.size (getSlot slots i).size then
      let step := EmitSlot slots p i
      TransmitCycleLoop step.2 step.1 rest
    else
      TransmitCycleLoop slots p rest

/-- The scheduler state touched by `TransmitCycle`: the 16 slots, the
priority window counter and the (persistent) transmit packet buffer. -/
structure TxState where
  slots : List Slot
  priorityCount : Nat
  txPacket : Packet
deriving DecidableEq, Repr

/-- Function `SlotRfProtocol::Impl::TransmitCycle`: age every slot, pick the slots
enabled in the current priority window sorted by descending age, pack them
into `tx_packet_` (which the source never resets between frames), advance
the priority window, and hand `tx_packet_` to the radio. -/
def TransmitCycle (s : TxState) : TxState :=
  let aged := s.slots.map (fun sl => { sl with age := (sl.age + 1) % 4294967296 })
  let enabled := FindEnabledSlots aged s.priorityCount
  let sorted := sortByAgeDesc aged enabled
  let packed := TransmitCycleLoop aged s.txPacket sorted
  { slots := packed.2,
    priorityCount := (s.priorityCount + 1) % 16,
    txPacket := packed.1 }

/-- The scheduler state at `Start`: default slots, window 0, empty packet. -/
def initialTxState : TxState :=
  { slots := List.replicate 16 defaultSlot, priorityCount := 0, txPacket := emptyPacket }

/-- Run `n` frames from state `s`, collecting the packet handed to
`nrf_->Transmit` at the end of each frame. -/
def framePackets : Nat → TxState → List Packet
  | 0, _ => []
  | n + 1, s =>
    let s2 := TransmitCycle s
    s2.txPacket :: framePackets n s2

/-- Run one frame per entry of `frames`, first replacing the slot array by
that entry (over-approximating every possible external slot write between
frames), and collect the size of each packet handed to the radio. -/
def runSchedule : List (List Slot) → TxState → List Nat
  | [], _ => []
  | f :: rest, s =>
    let s2 := TransmitCycle { s with slots := f }
    s2.txPacket.size :: runSchedule rest s2

/-- The scenario of spec §8 S2: TX slot 3 with priority `0xFFFFFFFF`,
size 4, data `DE AD BE EF`; all other slots disabled. -/
def scenarioSlot3 : Slot :=
  { priority := 0xFFFFFFFF, size := 4, age := 0, data := [0xDE, 0xAD, 0xBE, 0xEF] }

/-- The S2 scenario slot array. -/
def scenarioSlots : List Slot :=
  (List.range 16).map (fun i => if i = 3 then scenarioSlot3 else defaultSlot)

/-- The S2 scenario start state. -/
def scenarioState : TxState :=
  { slots := scenarioSlots, priorityCount := 0, txPacket := emptyPacket }

/-! ## Shockburst id and radio configuration
(`SlotRfProtocol::Impl::SelectShockburstId`, `SlotRfProtocol::Impl::Restart`,
`Nrf24l01::Configure`, `Nrf24l01::GetConfig`) -/

/-- The `make_byte` lambda of `SelectShockburstId`: bits 1–7 of
`slot_id >> shift`, with bit 0 set to the complement of its bit 1. -/
def makeByte (slotId shift : Nat) : Nat :=
  let shifted := slotId >>> shift
  (shifted &&& 0xfe) ||| (((shifted >>> 1) &&& 0x01) ^^^ 0x01)

/-- Function `SlotRfProtocol::Impl::SelectShockburstId`: the 40-bit Shockburst pipe
id derived from the configured link id — low byte forced to
`0xc0 | (id & 0x0f)`, upper four bytes from `make_byte` at shifts
4/11/18/25. -/
def SelectShockburstId (slotId : Nat) : Nat :=
  let byteLsb := 0xc0 ||| (slotId &&& 0x0f)
  byteLsb
    ||| (makeByte slotId 4 <<< 8)
    ||| (makeByte slotId 11 <<< 16)
    ||| (makeByte slotId 18 <<< 24)
    ||| (makeByte slotId 25 <<< 32)

/-- Structure `Nrf24l01::Options`, with the fields `Configure`/`GetConfig` read. -/
structure NrfOptions where
  ptx : Bool
  addressLength : Nat
  id : Nat
  dynamicPayloadLength : Bool
  enableCrc : Bool
  crcLength : Int
  autoRetransmitCount : Int
  autoRetransmitDelayUs : Int
  automaticAcknowledgment : Bool
  initialChannel : Nat
  dataRate : Int
  outputPower : Int
deriving DecidableEq, Repr

/-- Structure `SlotRfProtocol::Options`, with the fields `Restart` reads. -/
structure ProtocolOptions where
  ptx : Bool
  id : Nat
  dataRate : Int
  outputPower : Int
  autoRetransmitCount : Int
deriving DecidableEq, Repr

/-- The `Nrf24l01::Options` built in `SlotRfProtocol::Impl::Restart`:
`address_length = 5` and `id = SelectShockburstId()`, the rest copied or
fixed exactly as in the source. -/
def restartNrfOptions (o : ProtocolOptions) : NrfOptions :=
  { ptx := o.ptx,
    addressLength := 5,
    id := SelectShockburstId o.id,
    dynamicPayloadLength := true,
    enableCrc := true,
    crcLength := 2,
    autoRetransmitCount := o.autoRetransmitCount,
    autoRetransmitDelayUs := 1000,
    automaticAcknowledgment := true,
    initialChannel := 0,
    dataRate := o.dataRate,
    outputPower := o.outputPower }

/-- Function `Nrf24l01::GetConfig`: the CONFIG register byte. -/
def GetConfig (o : NrfOptions) : Nat :=
  0
    ||| (0 <<< 6)
    ||| (0 <<< 5)
    ||| (0 <<< 4)
    ||| ((if o.enableCrc then 1 else 0) <<< 3)
    ||| ((if o.crcLength = 2 then 1 else 0) <<< 2)
    ||| (1 <<< 1)
    ||| ((if o.ptx then 0 else 1) <<< 0)

/-- The SETUP_AW encoding in `Configure`; `none` models `mbed_die()`. -/
def setupAwValue (addressLength : Nat) : Option Nat :=
  if addressLength = 3 then some 1
  else if addressLength = 4 then some 2
  else if addressLength = 5 then some 3
  else none

/-- The data-rate bits of RF_SETUP; `none` models `mbed_die()`. -/
def dataRateBits (dataRate : Int) : Option Nat :=
  if dataRate = 250000 then some (1 <<< 5)
  else if dataRate = 1000000 then some ((0 <<< 5) ||| (0 <<< 3))
  else if dataRate = 2000000 then some ((0 <<< 5) ||| (1 <<< 3))
  else none

/-- The output-power bits of RF_SETUP; `none` models `mbed_die()`. -/
def outputPowerBits (outputPower : Int) : Option Nat :=
  if outputPower = -18 then some 0
  else if outputPower = -12 then some 2
  else if outputPower = -6 then some 4
  else if outputPower = 0 then some 6
  else if outputPower = 7 then some 1
  else none

/-- The SETUP_RETR byte:
`std::min(15, delay_us / 250) << 4 | std::min(15, count)`. -/
def setupRetrValue (o : NrfOptions) : Nat :=
  ((min 15 (o.autoRetransmitDelayUs / 250)).toNat <<< 4)
    ||| (min 15 o.autoRetransmitCount).toNat

/-- The low `len` bytes of `value`, little-endian — the memory view
`std::string_view id_view{(const char*)&options_.id, address_length}`
takes of a little-endian `uint64_t`. -/
def leBytes (value len : Nat) : List Nat :=
  (List.range len).map (fun i => (value >>> (8 * i)) &&& 0xff)

/-- Function `Nrf24l01::Configure`: the `(register, bytes)` writes issued (each one
read-verified), in source order; `none` models an `mbed_die()` on an
unencodable option. -/
def ConfigureWrites (o : NrfOptions) : Option (List (Nat × List Nat)) := do
  let aw ← setupAwValue o.addressLength
  let rate ← dataRateBits o.dataRate
  let power ← outputPowerBits o.outputPower
  let idView := leBytes o.id o.addressLength
  some
    [ (0x00, [GetConfig o]),
      (0x01, [if o.automaticAcknowledgment then 1 else 0]),
      (0x02, [0x01]),
      (0x03, [aw]),
      (0x04, [setupRetrValue o]),
      (0x05, [o.initialChannel &&& 0x7f]),
      (0x06, [rate ||| power]),
      (0x0a, idView),
      (0x10, idView),
      (0x1c, [if o.dynamicPayloadLength || o.automaticAcknowledgment then 1 else 0]),
      (0x1d, [0
        ||| ((if o.dynamicPayloadLength || o.automaticAcknowledgment then 1 else 0) <<< 2)
        ||| ((if o.automaticAcknowledgment then 1 else 0) <<< 1)
        ||| ((if o.automaticAcknowledgment then 1 else 0) <<< 0)]) ]

/-! ## PRX receive mode (`SlotRfProtocol::Impl::Poll`, `PollMillisecond`) -/

/-- Enumeration `SlotRfProtocol::Impl::ReceiveMode`. -/
inductive ReceiveMode where
  | synchronizing
  | locked
deriving DecidableEq, Repr

/-- The protocol state touched by the PRX branch of `Poll` /
`PollMillisecond`: the receive mode, the slot timer and the index into the
channel table. -/
structure PrxState where
  receiveMode : ReceiveMode
  slotTimer : Int
  channel : Nat
deriving DecidableEq, Repr

/-- The state after `Start`: `receive_mode_ = kSynchronizing`,
`slot_timer_ = kSlotPeriodMs`, `channel_ = 0`. -/
def initialPrxState : PrxState :=
  { receiveMode := .synchronizing, slotTimer := 20, channel := 0 }

/-- Function `SlotRfProtocol::Impl::Poll`: when the radio has a packet ready,
read it, set `receive_mode_ = kLocked` and `slot_timer_ = kSlotPeriodMs`. -/
def Poll (dataReady : Bool) (s : PrxState) : PrxState :=
  if dataReady then { s with receiveMode := .locked, slotTimer := 20 } else s

/-- The PRX branch of `SlotRfProtocol::Impl::PollMillisecond`: decrement
the timer, wrap it from 0 to 20, and when it equals 10 while locked,
advance to the next channel. -/
def PollMillisecondPrx (s : PrxState) : PrxState :=
  let t1 := s.slotTimer - 1
  let t2 := if t1 = 0 then 20 else t1
  if t2 = 10 ∧ s.receiveMode = .locked then
    { s with slotTimer := t2, channel := (s.channel + 1) % 23 }
  else
    { s with slotTimer := t2 }

/-- The externally triggerable steps on a PRX protocol instance. -/
inductive PrxEvent where
  | poll (dataReady : Bool)
  | pollMs
deriving DecidableEq, Repr

/-- One step of the PRX protocol. -/
def prxStep : PrxEvent → PrxState → PrxState
  | .poll d, s => Poll d s
  | .pollMs, s => PollMillisecondPrx s

/-- Run a sequence of `Poll` / `PollMillisecond` calls. -/
def runPrx : List PrxEvent → PrxState → PrxState
  | [], s => s
  | e :: rest, s => runPrx rest (prxStep e s)

/-! ## Manager idle timeout (`SlotRfManager::Impl::PollMillisecond`,
`DisableTransmit`, `Command_Tx`) -/

/-- Constant `kNumRemotes`: the manager's `Config::ids` array holds two link ids. -/
def kNumRemotes : Nat := 2

/-- The manager configuration fields the idle timeout reads. -/
structure MgrConfig where
  transmitTimeoutMs : Int
deriving DecidableEq, Repr

/-- The manager state touched by the idle timeout: the countdown
`timeout_remaining_` and the TX slot arrays of every remote. -/
structure MgrState where
  config : MgrConfig
  timeoutRemaining : Int
  txSlots : List (List Slot)
deriving DecidableEq, Repr

/-- The manager state at construction: `timeout_remaining_ = 0` and
default TX slots for each remote. -/
def initialMgrState (cfg : MgrConfig) : MgrState :=
  { config := cfg,
    timeoutRemaining := 0,
    txSlots := List.replicate kNumRemotes (List.replicate 16 defaultSlot) }

/-- Function `SlotRfManager::Impl::DisableTransmit`: for every remote and every
slot index, rewrite the TX slot with priority 0. -/
def DisableTransmit (s : MgrState) : MgrState :=
  { s with txSlots :=
      s.txSlots.map (fun remote => remote.map (fun sl => { sl with priority := 0 })) }

/-- Function `SlotRfManager::Impl::PollMillisecond`:
`timeout_remaining_ = max(0, timeout_remaining_ - 1)`, then if it is zero
and `config_.transmit_timeout_ms` is nonzero, `DisableTransmit()`. -/
def PollMillisecondMgr (s : MgrState) : MgrState :=
  let t := max 0 (s.timeoutRemaining - 1)
  let s2 := { s with timeoutRemaining := t }
  if t = 0 ∧ s2.config.transmitTimeoutMs ≠ 0 then DisableTransmit s2 else s2

/-- Replace slot `i` of remote `r`. -/
def setTxSlot (remotes : List (List Slot)) (r i : Nat) (sl : Slot) : List (List Slot) :=
  remotes.set r ((remotes.getD r []).set i sl)

/-- The state effect of `SlotRfManager::Impl::Command_Tx` on a successful
parse: store the slot and refill
`timeout_remaining_ = config_.transmit_timeout_ms`. -/
def CommandTx (s : MgrState) (remoteIndex slotIndex : Nat) (sl : Slot) : MgrState :=
  { s with txSlots := setTxSlot s.txSlots remoteIndex slotIndex sl,
           timeoutRemaining := s.config.transmitTimeoutMs }

/-! ## RX sublayer parsing

The source revision under verification leaves reception unimplemented
(`SlotRfProtocol::Impl::Poll` reads the packet and carries a
`// TODO: Look for data.`); only the consumer
(`SlotRfManager::Impl::EmitSlots`) is present. The decoder below is
therefore modelled from the spec. -/

/-- Modelled from the spec: the `FRAMING_ERR` flag OR-ed into the error
register (its numeric value is not given by the spec; bit 0 is used). -/
def FRAMING_ERR : Nat := 1

/-- The receiver-visible state the decoder writes: the 16 RX slots, the
per-remote change bitfield and the error register. -/
structure RxState where
  rxSlots : List Slot
  bitfield : Nat
  error : Nat
deriving DecidableEq, Repr

/-- The RX state before any reception. -/
def initialRxState : RxState :=
  { rxSlots := List.replicate 16 defaultSlot, bitfield := 0, error := 0 }

/-- Modelled from the spec: store a decoded sublayer — copy the payload
into `rx_slots[index]`, stamp `age = 0`, set bit `1 << (index*2)` in the
change bitfield. -/
def writeRxSlot (st : RxState) (idx sz : Nat) (payload : List Nat) : RxState :=
  { st with
      rxSlots := st.rxSlots.set idx
        { getSlot st.rxSlots idx with size := sz, age := 0, data := payload },
      bitfield := st.bitfield ||| (1 <<< (idx * 2)) }

/-- Modelled from the spec: the missing packet decoder of
`SlotRfProtocol` reception. Parse left-to-right: header byte `h` gives
`index = h >> 4`, `size = h & 0x0F`; when `pos + 1 + size ≤ packet.size`
(that is, `size` bytes remain after the header) copy them into
`rx_slots[index]`; otherwise raise `FRAMING_ERR` and stop at the violating
byte. Returns the final state and the unconsumed bytes. -/
def ParseSublayersAux : Nat → List Nat → RxState → RxState × List Nat
  | 0, bytes, st => (st, bytes)
  | _ + 1, [], st => (st, [])
  | fuel + 1, h :: restBytes, st =>
    let idx := h >>> 4
    let sz := h &&& 0x0f
    if sz ≤ restBytes.length then
      ParseSublayersAux fuel (restBytes.drop sz) (writeRxSlot st idx sz (restBytes.take sz))
    else
      ({ st with error := st.error ||| FRAMING_ERR }, h :: restBytes)

/-- Modelled from the spec: run the decoder with enough fuel for every
sublayer (each consumes at least one byte, so `length + 1` iterations
always complete the parse). -/
def ParseSublayers (bytes : List Nat) (st : RxState) : RxState × List Nat :=
  ParseSublayersAux (bytes.length + 1) bytes st

/-! ## Concrete instances used by the theorems -/

/-- The bytes `Configure` writes to `RX_ADDR_P0` and `TX_ADDR` for a given
protocol link id: the `id_view` of the driver options `Restart` builds. -/
def pipeAddressBytes (po : ProtocolOptions) : List Nat :=
  leBytes (restartNrfOptions po).id (restartNrfOptions po).addressLength

/-- A protocol configuration with link id 0 (and the manager's default
radio parameters). -/
def zeroIdOptions : ProtocolOptions :=
  { ptx := true, id := 0, dataRate := 1000000, outputPower := 0, autoRetransmitCount := 0 }

/-- The concrete register writes for `zeroIdOptions`. -/
def zeroIdWrites : List (Nat × List Nat) :=
  (ConfigureWrites (restartNrfOptions zeroIdOptions)).getD []

/-!
# Theorems

Helper lemmas first, then one theorem per claim (with witnesses and
counterexamples where called for).
-/

/-- Every band's upper channel bound is at least its quota — the reason
`EvaluatePossibleChannel`'s final test always fires. -/
theorem bandMax_le_bandChannel (b : Nat) : bandMax b ≤ bandChannel b := by
  rcases b with _ | _ | _ | b <;> simp [bandMax, bandChannel]

/-- The channel filter rejects every candidate. -/
theorem evaluatePossibleChannel_false (channels : List Nat) (c : Nat) :
    EvaluatePossibleChannel channels c = false := by
  simp [EvaluatePossibleChannel, ge_iff_le, bandMax_le_bandChannel]

/-- With an empty accumulator the generation loop never adds a channel,
for any fuel and any PRN state. -/
theorem generateAux_nil (fuel : Nat) :
    ∀ prn, GenerateChannelTableAux fuel prn [] = none := by
  induction fuel with
  | zero => intro prn; rfl
  | succ n ih =>
    intro prn
    simp [GenerateChannelTableAux, evaluatePossibleChannel_false, ih]

/-- C2: the claim states that for every 32-bit link-id seed the
accept/reject loop collects exactly 23 accepted channels and stops. The
code does the opposite: `EvaluatePossibleChannel` rejects every candidate
(it compares `band_channels[this_band]`, the band's upper channel number
31/63/95/125, against `band_max[this_band]` 6/6/6/5 instead of the
occupancy count `band_count`), so the `while (channel_count < 23)` loop
never accepts a channel and never terminates, for any seed and any number
of iterations. -/
theorem GenerateChannelTable_never_completes :
    (∀ (channels : List Nat) (c : Nat), EvaluatePossibleChannel channels c = false) ∧
    (∀ (id fuel : Nat), GenerateChannelTable id fuel = none) :=
  ⟨evaluatePossibleChannel_false, fun id fuel => generateAux_nil fuel (id % 4294967296)⟩

/-- C3: the claim describes the 23-element channel table generated for
`id_low32 = 0x30251023`. No table exists: because every candidate is
rejected, generation for this seed makes no progress no matter how many
loop iterations are allowed. -/
theorem GenerateChannelTable_seed_30251023_none :
    ∀ fuel, GenerateChannelTable 0x30251023 fuel = none :=
  fun fuel => generateAux_nil fuel (0x30251023 % 4294967296)

/-- C4: the claim states that with only TX slot 3 enabled
(priority `0xFFFFFFFF`, size 4, data `DE AD BE EF`) every one of 16
consecutive frames transmits a packet of size exactly 5 holding the single
sublayer `34 DE AD BE EF`. Only the first frame does: `tx_packet_.size`
is never reset between frames, so the packet accumulates one more copy of
the sublayer per frame (sizes 5, 10, …, 30) until no further sublayer
fits, after which the same stale 30-byte packet is retransmitted forever. -/
theorem TransmitCycle_accumulates :
    (framePackets 16 scenarioState).map Packet.size
      = [5, 10, 15, 20, 25, 30, 30, 30, 30, 30, 30, 30, 30, 30, 30, 30] ∧
    (framePackets 2 scenarioState).map Packet.data
      = [[0x34, 0xDE, 0xAD, 0xBE, 0xEF],
         [0x34, 0xDE, 0xAD, 0xBE, 0xEF, 0x34, 0xDE, 0xAD, 0xBE, 0xEF]] := by
  decide

/-- C5 counterexample: the claim says a candidate is accepted iff
`tx_size + 1 + slots[i].size ≤ 32`, so a sublayer that exactly fills the
packet to 32 bytes is accepted. At `tx_size = 15` with a 16-byte slot
(`15 + 1 + 16 = 32`) the code's test
`(slots[i].size + 1) < 32 - tx_size` rejects the slot. -/
theorem acceptSlot_exact_fill_rejected :
    acceptSlot 15 16 = false ∧ 15 + 1 + 16 ≤ 32 := by
  decide

/-- C5 amended: a candidate slot is accepted by the packing loop iff
`tx_size + 1 + slots[i].size < 32` (strictly); a sublayer that would
exactly fill the packet to 32 bytes is skipped. -/
theorem acceptSlot_iff_strictly_lt (txSize slotSize : Nat) :
    acceptSlot txSize slotSize = true ↔ txSize + 1 + slotSize < 32 := by
  unfold acceptSlot
  rw [decide_eq_true_eq]
  omega

/-- The packing loop keeps `tx_packet_.size` at most 31: an accepted
sublayer lands strictly below 32 and a rejected one leaves the packet
unchanged. -/
theorem transmitCycleLoop_size_le (l : List Nat) :
    ∀ (slots : List Slot) (p : Packet), p.size ≤ 31 →
      (TransmitCycleLoop slots p l).1.size ≤ 31 := by
  induction l with
  | nil => intro slots p h; exact h
  | cons i rest ih =>
    intro slots p h
    by_cases hac : acceptSlot p.size (getSlot slots i).size = true
    · have hfit : p.size + 1 + (getSlot slots i).size ≤ 31 := by
        unfold acceptSlot at hac
        rw [decide_eq_true_eq] at hac
        omega
      have he : (EmitSlot slots p i).1.size = p.size + 1 + (getSlot slots i).size := rfl
      simp only [TransmitCycleLoop, hac, if_true]
      exact ih _ _ (he ▸ hfit)
    · simp only [TransmitCycleLoop, hac, if_false]
      exact ih _ _ h

/-- One frame keeps `tx_packet_.size` at most 31. -/
theorem transmitCycle_size_le (s : TxState) (h : s.txPacket.size ≤ 31) :
    (TransmitCycle s).txPacket.size ≤ 31 := by
  simp only [TransmitCycle]
  exact transmitCycleLoop_size_le _ _ _ h

/-- Every packet size produced along a run stays at most 32, from any
state whose packet is within bounds. -/
theorem runSchedule_mem_le (frames : List (List Slot)) :
    ∀ (s : TxState), s.txPacket.size ≤ 31 →
      ∀ n ∈ runSchedule frames s, n ≤ 32 := by
  induction frames with
  | nil => intro s _ n hn; simp [runSchedule] at hn
  | cons f rest ih =>
    intro s hs n hn
    have hstep : (TransmitCycle { s with slots := f }).txPacket.size ≤ 31 :=
      transmitCycle_size_le _ hs
    simp only [runSchedule, List.mem_cons] at hn
    rcases hn with h1 | h2
    · omega
    · exact ih _ hstep n h2

/-- C7: every packet the slot scheduler hands to the radio has size at
most 32, whatever slot contents (sizes, priorities, ages) are written
between frames and however many frames run. -/
theorem generated_packets_le_32 (frames : List (List Slot)) (n : Nat)
    (h : n ∈ runSchedule frames initialTxState) : n ≤ 32 :=
  runSchedule_mem_le frames initialTxState (by decide) n h

/-- Witness for C7 at a concrete run: one frame with an empty slot table
transmits the (empty) packet of size 0. -/
theorem generated_packets_le_32_witness :
    0 ∈ runSchedule [[]] initialTxState ∧ (0 : Nat) ≤ 32 :=
  ⟨by decide, generated_packets_le_32 [[]] 0 (by decide)⟩

/-- C1 counterexample: on the claim's own bytes
`24 AA BB CC DD 55 66 7F` the decode of the first sublayer consumes five
bytes, leaving `55 66 7F`; the next header `0x55` claims a 5-byte payload
with only two bytes left, so by the spec's parse rule `FRAMING_ERR` is
raised there and the parse stops at `0x55` — slot 5 never receives `66`
and the header `0x7F` is never reached. -/
theorem parse_claim_bytes_stop_at_55 :
    (getSlot (ParseSublayers [0x24, 0xAA, 0xBB, 0xCC, 0xDD, 0x55, 0x66, 0x7F]
        initialRxState).1.rxSlots 5).data = [] ∧
    (ParseSublayers [0x24, 0xAA, 0xBB, 0xCC, 0xDD, 0x55, 0x66, 0x7F]
        initialRxState).1.error = FRAMING_ERR ∧
    (ParseSublayers [0x24, 0xAA, 0xBB, 0xCC, 0xDD, 0x55, 0x66, 0x7F]
        initialRxState).2 = [0x55, 0x66, 0x7F] := by
  decide

/-- C1 amended: with the slot-5 sublayer header corrected from `0x55` to
`0x51` (index 5, size 1), the payload `24 AA BB CC DD 51 66 7F` decodes as
claimed — slot 2 receives `AA BB CC DD` and slot 5 receives `66`, both
with age 0 and their change-bitfield bits set, and the trailing header
`0x7F` (claiming 15 bytes with none following) raises `FRAMING_ERR` and
terminates the parse at that byte. -/
theorem parse_corrected_bytes :
    (getSlot (ParseSublayers [0x24, 0xAA, 0xBB, 0xCC, 0xDD, 0x51, 0x66, 0x7F]
        initialRxState).1.rxSlots 2).data = [0xAA, 0xBB, 0xCC, 0xDD] ∧
    (getSlot (ParseSublayers [0x24, 0xAA, 0xBB, 0xCC, 0xDD, 0x51, 0x66, 0x7F]
        initialRxState).1.rxSlots 2).age = 0 ∧
    (getSlot (ParseSublayers [0x24, 0xAA, 0xBB, 0xCC, 0xDD, 0x51, 0x66, 0x7F]
        initialRxState).1.rxSlots 5).data = [0x66] ∧
    (getSlot (ParseSublayers [0x24, 0xAA, 0xBB, 0xCC, 0xDD, 0x51, 0x66, 0x7F]
        initialRxState).1.rxSlots 5).age = 0 ∧
    (ParseSublayers [0x24, 0xAA, 0xBB, 0xCC, 0xDD, 0x51, 0x66, 0x7F]
        initialRxState).1.error = FRAMING_ERR ∧
    (ParseSublayers [0x24, 0xAA, 0xBB, 0xCC, 0xDD, 0x51, 0x66, 0x7F]
        initialRxState).1.bitfield = (1 <<< (2 * 2)) ||| (1 <<< (5 * 2)) ∧
    (ParseSublayers [0x24, 0xAA, 0xBB, 0xCC, 0xDD, 0x51, 0x66, 0x7F]
        initialRxState).2 = [0x7F] := by
  decide

/-- C6 counterexample: the claim says the 5-byte pipe address equals the
low 40 bits of the 64-bit link id, little-endian. For link id 0 the bytes
programmed into `RX_ADDR_P0`/`TX_ADDR` are
`C0 01 01 01 01` — `SelectShockburstId`'s transformation of the id — not
`00 00 00 00 00`. -/
theorem pipe_address_not_link_id :
    pipeAddressBytes zeroIdOptions ≠ leBytes zeroIdOptions.id 5 ∧
    pipeAddressBytes zeroIdOptions = [0xc0, 0x01, 0x01, 0x01, 0x01] := by
  decide

/-- C6 amended: the radio pipe address programmed into `RX_ADDR_P0` and
`TX_ADDR` is the low `address_length = 5` bytes, little-endian, of
`SelectShockburstId(link id)` — the Shockburst-mangled id whose low byte
is forced to `0xC0 | (id & 0x0F)` and whose upper bytes interleave a
complemented bit — not of the raw link id. -/
theorem pipe_address_is_shockburst_id (po : ProtocolOptions)
    (ws : List (Nat × List Nat))
    (h : ConfigureWrites (restartNrfOptions po) = some ws) :
    (0x0a, leBytes (SelectShockburstId po.id) 5) ∈ ws ∧
    (0x10, leBytes (SelectShockburstId po.id) 5) ∈ ws := by
  cases hr : dataRateBits po.dataRate with
  | none => simp [ConfigureWrites, restartNrfOptions, setupAwValue, hr] at h
  | some rate =>
    cases hp : outputPowerBits po.outputPower with
    | none => simp [ConfigureWrites, restartNrfOptions, setupAwValue, hr, hp] at h
    | some power =>
      simp [ConfigureWrites, restartNrfOptions, setupAwValue, hr, hp] at h
      subst h
      refine ⟨?_, ?_⟩ <;> simp

/-- Witness for C6's amended theorem at the concrete link id 0. -/
theorem pipe_address_is_shockburst_id_witness :
    (0x0a, leBytes (SelectShockburstId zeroIdOptions.id) 5) ∈ zeroIdWrites ∧
    (0x10, leBytes (SelectShockburstId zeroIdOptions.id) 5) ∈ zeroIdWrites :=
  pipe_address_is_shockburst_id zeroIdOptions zeroIdWrites (by decide)

/-- C8: for every options value, the CONFIG byte has `PWR_UP = 1`,
`PRIM_RX = 1` exactly when `ptx` is false, `EN_CRC = enable_crc`,
`CRCO = 1` exactly when `crc_length == 2`, and interrupt-mask bits 6, 5
and 4 all clear. -/
theorem GetConfig_bits (o : NrfOptions) :
    (GetConfig o).testBit 1 = true ∧
    (GetConfig o).testBit 0 = !o.ptx ∧
    (GetConfig o).testBit 3 = o.enableCrc ∧
    (GetConfig o).testBit 2 = decide (o.crcLength = 2) ∧
    (GetConfig o).testBit 4 = false ∧
    (GetConfig o).testBit 5 = false ∧
    (GetConfig o).testBit 6 = false := by
  rcases o with ⟨ptx, aL, id, dpl, ec, cl, arc, ard, aa, ic, dr, op⟩
  by_cases hc : cl = 2 <;> cases ptx <;> cases ec <;>
    simp [GetConfig, hc] <;> decide

/-- A single protocol step never clears a locked receive mode. -/
theorem prxStep_locked (e : PrxEvent) (s : PrxState)
    (h : s.receiveMode = .locked) : (prxStep e s).receiveMode = .locked := by
  cases e with
  | poll d => cases d <;> simp [prxStep, Poll, h]
  | pollMs =>
    simp only [prxStep, PollMillisecondPrx]
    split <;> split <;> simpa using h

/-- C9: the PRX receive mode starts in `Synchronizing`; the first
successful reception (`Poll` with data ready) moves it to `Locked` and
sets `slot_timer = 20`; and no subsequent sequence of `Poll` /
`PollMillisecond` calls ever returns a locked state to `Synchronizing`. -/
theorem receive_mode_locked_stable :
    initialPrxState.receiveMode = .synchronizing ∧
    (∀ s : PrxState, (Poll true s).receiveMode = .locked ∧ (Poll true s).slotTimer = 20) ∧
    (∀ (evs : List PrxEvent) (s : PrxState), s.receiveMode = .locked →
      (runPrx evs s).receiveMode = .locked) := by
  refine ⟨rfl, fun s => ⟨rfl, rfl⟩, ?_⟩
  intro evs
  induction evs with
  | nil => intro s h; exact h
  | cons e rest ih => intro s h; exact ih _ (prxStep_locked e s h)

/-- Witness for C9: a concrete locked state stays locked over a concrete
call sequence. -/
theorem receive_mode_locked_stable_witness :
    (runPrx [.pollMs, .pollMs, .poll false] (Poll true initialPrxState)).receiveMode
      = .locked :=
  receive_mode_locked_stable.2.2 [.pollMs, .pollMs, .poll false]
    (Poll true initialPrxState) (by decide)

/-- Every entry of a slot array whose members all have priority 0 reads
back (through the default-padding accessor) with priority 0. -/
theorem getSlot_priority_zero :
    ∀ (slots : List Slot), (∀ sl ∈ slots, sl.priority = 0) →
      ∀ i, (getSlot slots i).priority = 0 := by
  intro slots
  induction slots with
  | nil => intro _ i; rfl
  | cons a l ih =>
    intro h i
    cases i with
    | zero => exact h a (by simp)
    | succ n =>
      simpa [getSlot, List.getD_cons_succ] using
        ih (fun sl hs => h sl (List.mem_cons_of_mem a hs)) n

/-- With every slot priority 0 no slot is enabled in any window. -/
theorem findEnabledSlots_nil (slots : List Slot)
    (h : ∀ sl ∈ slots, sl.priority = 0) (pc : Nat) :
    FindEnabledSlots slots pc = [] := by
  unfold FindEnabledSlots
  rw [List.filter_eq_nil_iff]
  intro i _
  simp [getSlot_priority_zero slots h i]

/-- With every slot priority 0, a frame leaves the transmit packet
untouched: nothing is packed. -/
theorem transmitCycle_mute (slots : List Slot) (pc : Nat) (p : Packet)
    (h : ∀ sl ∈ slots, sl.priority = 0) :
    (TransmitCycle { slots := slots, priorityCount := pc, txPacket := p }).txPacket
      = p := by
  have h2 : ∀ sl ∈ slots.map
      (fun sl => { sl with age := (sl.age + 1) % 4294967296 }), sl.priority = 0 := by
    intro sl hs
    rcases List.mem_map.mp hs with ⟨a, ha, rfl⟩
    exact h a ha
  simp only [TransmitCycle]
  rw [findEnabledSlots_nil _ h2]
  rfl

/-- C10: at manager start-up `timeout_remaining_` is 0 before any
external slot write; with a nonzero `transmit_timeout_ms` every
`PollMillisecond` call therefore runs `DisableTransmit`, zeroing the
priority of every TX slot of every remote (and the counter stays 0);
zero-priority slots enable nothing, so frames pack no sublayer; and a tx
command refills the counter from the configuration. -/
theorem idle_timeout_startup_mute :
    (∀ cfg, (initialMgrState cfg).timeoutRemaining = 0) ∧
    (∀ s : MgrState, s.timeoutRemaining = 0 → s.config.transmitTimeoutMs ≠ 0 →
      (PollMillisecondMgr s).timeoutRemaining = 0 ∧
      ∀ remote ∈ (PollMillisecondMgr s).txSlots, ∀ sl ∈ remote, sl.priority = 0) ∧
    (∀ (slots : List Slot) (pc : Nat) (p : Packet),
      (∀ sl ∈ slots, sl.priority = 0) →
      FindEnabledSlots slots pc = [] ∧
      (TransmitCycle { slots := slots, priorityCount := pc, txPacket := p }).txPacket = p) ∧
    (∀ (s : MgrState) (r i : Nat) (sl : Slot),
      (CommandTx s r i sl).timeoutRemaining = s.config.transmitTimeoutMs) := by
  refine ⟨fun cfg => rfl, ?_, ?_, fun s r i sl => rfl⟩
  · intro s h0 hms
    have hmax : max 0 (s.timeoutRemaining - 1) = 0 := by omega
    constructor
    · simp [PollMillisecondMgr, hmax, hms, DisableTransmit]
    · intro remote hr sl hs
      simp only [PollMillisecondMgr, hmax, hms, ne_eq, not_false_eq_true,
        and_self, if_true, DisableTransmit] at hr
      rcases List.mem_map.mp hr with ⟨rem0, _, rfl⟩
      rcases List.mem_map.mp hs with ⟨sl0, _, rfl⟩
      rfl
  · intro slots pc p h
    exact ⟨findEnabledSlots_nil slots h pc, transmitCycle_mute slots pc p h⟩

/-- Witness for C10 at the manager's default configuration
(`transmit_timeout_ms = 1000`). -/
theorem idle_timeout_startup_mute_witness :
    (PollMillisecondMgr (initialMgrState { transmitTimeoutMs := 1000 })).timeoutRemaining
        = 0 ∧
    FindEnabledSlots (List.replicate 16 defaultSlot) 0 = [] :=
  ⟨(idle_timeout_startup_mute.2.1 (initialMgrState { transmitTimeoutMs := 1000 })
      (by decide) (by decide)).1,
   (idle_timeout_startup_mute.2.2.1 (List.replicate 16 defaultSlot) 0 emptyPacket
      (by decide)).1⟩

end Nrfusb
